import Mathlib

/-!
Shallow embedding of the `hector_timeit::Timer` profiling utility from
`src/timer.hpp` of the repository, together with theorems settling the
claims about its specification.

Modelling conventions:
* C++ `long` / `long long` nanosecond values are modelled as `Int`; the
  statements never rely on 64-bit overflow, and all concrete inputs are far
  below the overflow range.
* C++ integer division on `long` truncates toward zero, hence every
  division in the embedding is `Int.tdiv`.
* Clock reads are external inputs: every member function that samples a
  clock takes the sampled values as explicit arguments, in the order the
  C++ code performs the reads.  `getCpuTime` can fail, so a CPU read is an
  `Option Int` (`none` models `getCpuTime` returning `false`; in that case
  the C++ out-parameter keeps its previous value, which the embedding
  mirrors with `Option.getD`).
* `std::vector<long>` run histories are `List Int`; `push_back` is append.
* The floating point (`double`) statistics of `printStats` are modelled
  over `ℚ`.  For every value the claims mention, the `double` computation
  is exact (all intermediate values are integers or exact halves well
  below 2^53), so the rational model agrees with the IEEE computation
  there.  The model is not used to settle any claim about rounding.
-/

/-- Enumeration `Timer::TimeUnit` from timer.hpp. -/
inductive TimeUnit
  | Default
  | Seconds
  | Milliseconds
  | Microseconds
  | Nanoseconds
deriving DecidableEq, Repr

/-- State of a `hector_timeit::Timer` object: the fields of the C++ class
that the timing logic reads or writes (name and printing configuration are
omitted; they do not affect any claim).  Wall-clock `time_point`s are
nanosecond instants as `Int`. -/
structure Timer where
  run_times : List Int
  cpu_run_times : List Int
  start_a : Int
  start_b : Int
  elapsed_time : Int
  elapsed_cpu_time : Int
  cpu_start_a : Int
  cpu_start_b : Int
  running : Bool
  cpu_time_valid_a : Bool
  cpu_time_valid_b : Bool
deriving DecidableEq, Repr

/-- Member-initializer state of a freshly constructed timer (before the
optional autostart): empty histories, zero accumulators, not running,
CPU validity flags true (default time points are the epoch, i.e. 0). -/
def Timer.initial : Timer :=
  { run_times := [], cpu_run_times := [], start_a := 0, start_b := 0,
    elapsed_time := 0, elapsed_cpu_time := 0, cpu_start_a := 0, cpu_start_b := 0,
    running := false, cpu_time_valid_a := true, cpu_time_valid_b := true }

/-- `Timer::start`.  The clock reads happen in the order
`start_a_ = now(); start_b_ = now(); getCpuTime(cpu_start_a_); getCpuTime(cpu_start_b_)`,
modelled by the arguments `wall_a wall_b cpu_a cpu_b`.  If the timer is
already running the call returns immediately and nothing changes. -/
def Timer.start (t : Timer) (wall_a wall_b : Int) (cpu_a cpu_b : Option Int) : Timer :=
  if t.running then t
  else
    { t with running := true,
             start_a := wall_a, start_b := wall_b,
             cpu_time_valid_a := cpu_a.isSome,
             cpu_start_a := cpu_a.getD t.cpu_start_a,
             cpu_time_valid_b := cpu_b.isSome,
             cpu_start_b := cpu_b.getD t.cpu_start_b }

/-- `Timer::stop`.  Arguments are the clock reads in program order:
`getCpuTime(time_b)` (only performed when both CPU validity flags were
set), `getCpuTime(time_a)` (only when `cpu_time_valid_a_`), then the two
wall reads `time_point_b` and `time_point_a`.  Locals `time_a`/`time_b`
are initialised to 0 as in the C++ code.  If the timer is not running the
call returns immediately and nothing changes. -/
def Timer.stop (t : Timer) (cpu_b cpu_a : Option Int) (wall_b wall_a : Int) : Timer :=
  if t.running then
    let read_b := t.cpu_time_valid_a && t.cpu_time_valid_b
    let time_b : Int := if read_b then cpu_b.getD 0 else 0
    let valid_b : Bool := if read_b then cpu_b.isSome else t.cpu_time_valid_b
    let time_a : Int := if t.cpu_time_valid_a then cpu_a.getD 0 else 0
    let valid_a : Bool := if t.cpu_time_valid_a then cpu_a.isSome else false
    let cpu_diff : Int :=
      if valid_a && valid_b then ( time_a - t.cpu_start_a ) - ( time_b - t.cpu_start_b ) else 0
    let elapsed_cpu : Int :=
      if valid_b then ( time_b - t.cpu_start_b ) - Int.tdiv cpu_diff 2
      else time_a - t.cpu_start_a
    let wall_time_b := wall_b - t.start_b
    let wall_time_a := wall_a - t.start_a
    let elapsed := wall_time_b + Int.tdiv wall_time_b 2 - Int.tdiv wall_time_a 2 - 2 * cpu_diff
    { t with running := false,
             cpu_time_valid_a := valid_a,
             cpu_time_valid_b := valid_b,
             elapsed_cpu_time := t.elapsed_cpu_time + (if valid_a then elapsed_cpu else 0),
             elapsed_time := t.elapsed_time + elapsed }
  else t

/-- `Timer::reset`.  First calls `stop()` (the four sample arguments feed
that embedded stop; they are ignored when the timer was not running), then
either commits the accumulators as a new run (when `new_run` and the wall
accumulator is strictly positive) or clears the histories, and finally
zeroes the accumulators and re-enables both CPU validity flags. -/
def Timer.reset (t : Timer) (new_run : Bool) (cpu_b cpu_a : Option Int)
    (wall_b wall_a : Int) : Timer :=
  let ts := t.stop cpu_b cpu_a wall_b wall_a
  let ts2 :=
    if new_run then
      if ts.elapsed_time > 0 then
        { ts with run_times := ts.run_times ++ [ts.elapsed_time],
                  cpu_run_times := ts.cpu_run_times ++
                    [if ts.cpu_time_valid_a then ts.elapsed_cpu_time else -1] }
      else ts
    else { ts with run_times := [], cpu_run_times := [] }
  { ts2 with elapsed_time := 0, elapsed_cpu_time := 0,
             cpu_time_valid_a := true, cpu_time_valid_b := true }

/-- `Timer::getElapsedTime`.  `now` is the wall read performed when the
timer is running (it is ignored otherwise). -/
def Timer.getElapsedTime (t : Timer) (now : Int) : Int :=
  t.elapsed_time + (if t.running then now - t.start_b else 0)

/-- `Timer::getElapsedCpuTime`.  `cpu_now` is the CPU read performed when
the timer is running; `none` models a failed `getCpuTime`. -/
def Timer.getElapsedCpuTime (t : Timer) (cpu_now : Option Int) : Int :=
  if t.cpu_time_valid_a then
    (if t.running then
      match cpu_now with
      | none => -1
      | some c => t.elapsed_cpu_time + ( c - t.cpu_start_a )
     else t.elapsed_cpu_time)
  else -1

/-- `Timer::getRunTimes`: copy of the committed wall runs, with the
current elapsed time appended whenever it is nonzero. -/
def Timer.getRunTimes (t : Timer) (now : Int) : List Int :=
  let elapsed := t.getElapsedTime now
  if elapsed ≠ 0 then t.run_times ++ [elapsed] else t.run_times

/-- `Timer::getCpuRunTimes`: copy of the committed CPU runs, with the
current elapsed CPU time appended only when it is strictly positive. -/
def Timer.getCpuRunTimes (t : Timer) (cpu_now : Option Int) : List Int :=
  let elapsed := t.getElapsedCpuTime cpu_now
  if elapsed > 0 then t.cpu_run_times ++ [elapsed] else t.cpu_run_times

/-- Accumulator of the first loop of `printStats`: `max` starts at 0,
`min` at `INT64_MAX`, `sum` at 0, `count` at 0. -/
structure StatsAcc where
  max : Int
  min : Int
  sum : Int
  count : Nat
deriving DecidableEq, Repr

/-- Largest value of a 64-bit signed integer, the C++ `INT64_MAX` used to
initialise `min` in `printStats`. -/
def int64Max : Int := 9223372036854775807

/-- Body of the first `printStats` loop: entries equal to the sentinel -1
are skipped, otherwise `sum`, `count`, `max` and `min` are updated. -/
def statsStep (acc : StatsAcc) (time : Int) : StatsAcc :=
  if time = -1 then acc
  else { max := if time > acc.max then time else acc.max,
         min := if time < acc.min then time else acc.min,
         sum := acc.sum + time,
         count := acc.count + 1 }

/-- First loop of `printStats` over the whole run list. -/
def statsFold (run_times : List Int) : StatsAcc :=
  run_times.foldl statsStep { max := 0, min := int64Max, sum := 0, count := 0 }

/-- The `mean = (double)sum / count` of `printStats`, over ℚ. -/
def meanOf (run_times : List Int) : ℚ :=
  ((statsFold run_times).sum : ℚ) / ((statsFold run_times).count : ℚ)

/-- Body of the second `printStats` loop accumulating squared deviations,
again skipping sentinel entries. -/
def varStep (mean : ℚ) (v : ℚ) (time : Int) : ℚ :=
  if time = -1 then v else v + ((time : ℚ) - mean) ^ 2

/-- Second loop of `printStats`: the sum of squared deviations. -/
def varNumerator (mean : ℚ) (run_times : List Int) : ℚ :=
  run_times.foldl (varStep mean) 0

/-- The sample variance `var /= (count - 1)` of `printStats`, over ℚ.
For `count = 1` the C++ `double` division yields NaN while ℚ yields 0, and
for `count = 0` the C++ `size_t` subtraction wraps; no claim depends on the
variance in either of those cases (at `count = 0` `printStats` returns the
"no valid times" message before printing any statistic). -/
def varOf (run_times : List Int) : ℚ :=
  varNumerator (meanOf run_times) run_times / (((statsFold run_times).count : ℚ) - 1)

/-- Observable output of `printStats`: either the early-return message
"None of the runs had valid times!" (when no entry was valid), or the
printed statistics together with the optional warning line
"Only \x7bcount\x7d of \x7btotal\x7d had valid times!" emitted when some
entries were excluded. -/
inductive StatsOutput
  | noValid : StatsOutput
  | stats (mean variance : ℚ) (max min sum : Int) (warn : Option (Nat × Nat)) : StatsOutput
deriving DecidableEq

/-- The `printStats` routine of timer.hpp as a function from the run list
to its observable output. -/
def printStats (run_times : List Int) : StatsOutput :=
  let acc := statsFold run_times
  if acc.count = 0 then .noValid
  else
    .stats (meanOf run_times) (varOf run_times) acc.max acc.min acc.sum
      (if acc.count ≠ run_times.length then some (acc.count, run_times.length) else none)

/-- Textual time unit emitted by `printTimeString`. -/
inductive UnitLabel
  | ns
  | us
  | ms
  | s
deriving DecidableEq, Repr

/-- The `printTimeString` routine of timer.hpp, for an integral input,
modelled as the chosen unit suffix together with the scaled value over ℚ
(the C++ code streams `time / 1E9` etc. as a `double`; the threshold
comparisons `time < 5000`, `time < 5E6`, `time < 5E9` are exact for every
64-bit input because the thresholds are below 2^53, so the unit choice is
faithfully an integer comparison). -/
def printTimeString (time : Int) (print_time_unit : TimeUnit) : UnitLabel × ℚ :=
  match print_time_unit with
  | .Seconds => (.s, (time : ℚ) / 1000000000)
  | .Milliseconds => (.ms, (time : ℚ) / 1000000)
  | .Microseconds => (.us, (time : ℚ) / 1000)
  | .Nanoseconds => (.ns, (time : ℚ))
  | .Default =>
    if time < 5000 then (.ns, (time : ℚ))
    else if time < 5000000 then (.us, (time : ℚ) / 1000)
    else if time < 5000000000 then (.ms, (time : ℚ) / 1000000)
    else (.s, (time : ℚ) / 1000000000)

/-- One public operation on a timer, with the clock samples the operation
would read from the environment.  The getter methods are `const` in the
C++ class; `queryOp` stands for any of them. -/
inductive TimerOp
  | startOp (wall_a wall_b : Int) (cpu_a cpu_b : Option Int)
  | stopOp (cpu_b cpu_a : Option Int) (wall_b wall_a : Int)
  | resetOp (new_run : Bool) (cpu_b cpu_a : Option Int) (wall_b wall_a : Int)
  | queryOp
deriving DecidableEq

/-- Effect of one operation on the timer state. -/
def execOp (t : Timer) : TimerOp → Timer
  | .startOp wall_a wall_b cpu_a cpu_b => t.start wall_a wall_b cpu_a cpu_b
  | .stopOp cpu_b cpu_a wall_b wall_a => t.stop cpu_b cpu_a wall_b wall_a
  | .resetOp new_run cpu_b cpu_a wall_b wall_a => t.reset new_run cpu_b cpu_a wall_b wall_a
  | .queryOp => t

/-- Effect of a whole operation sequence, first operation first. -/
def execOps (t : Timer) (ops : List TimerOp) : Timer :=
  ops.foldl execOp t

/-- After any `stop()` call the timer is not running: either it was
running and `stop` clears the flag, or it already was stopped. -/
lemma Timer.stop_running (t : Timer) (cpu_b cpu_a : Option Int) (wall_b wall_a : Int) :
    (t.stop cpu_b cpu_a wall_b wall_a).running = false := by
  by_cases h : t.running <;> simp [Timer.stop, h]

/-- A `stop()` on a stopped timer returns the state unchanged. -/
lemma Timer.stop_of_not_running (t : Timer) (cpu_b cpu_a : Option Int) (wall_b wall_a : Int)
    (h : t.running = false) : t.stop cpu_b cpu_a wall_b wall_a = t := by
  simp [Timer.stop, h]

/-- `stop()` never touches the committed wall run history. -/
lemma Timer.stop_run_times (t : Timer) (cpu_b cpu_a : Option Int) (wall_b wall_a : Int) :
    (t.stop cpu_b cpu_a wall_b wall_a).run_times = t.run_times := by
  by_cases h : t.running <;> simp [Timer.stop, h]

/-- `stop()` never touches the committed CPU run history. -/
lemma Timer.stop_cpu_run_times (t : Timer) (cpu_b cpu_a : Option Int) (wall_b wall_a : Int) :
    (t.stop cpu_b cpu_a wall_b wall_a).cpu_run_times = t.cpu_run_times := by
  by_cases h : t.running <;> simp [Timer.stop, h]

/-- `start()` never touches the committed wall run history. -/
lemma Timer.start_run_times (t : Timer) (wall_a wall_b : Int) (cpu_a cpu_b : Option Int) :
    (t.start wall_a wall_b cpu_a cpu_b).run_times = t.run_times := by
  by_cases h : t.running <;> simp [Timer.start, h]

/-- `start()` never touches the committed CPU run history. -/
lemma Timer.start_cpu_run_times (t : Timer) (wall_a wall_b : Int) (cpu_a cpu_b : Option Int) :
    (t.start wall_a wall_b cpu_a cpu_b).cpu_run_times = t.cpu_run_times := by
  by_cases h : t.running <;> simp [Timer.start, h]

/-- C4: calling `start()` while the timer is already running, or `stop()`
while it is already stopped, is a no-op leaving the whole state (all
accumulators, run histories, stored samples and validity flags) unchanged;
in particular a second `stop()` immediately after a first changes
nothing. -/
theorem start_stop_are_noops :
    ∀ (t : Timer) (wall_a wall_b : Int) (cpu_a cpu_b cb ca cb2 ca2 : Option Int)
      (wb wa wb2 wa2 : Int),
      ({ t with running := true }.start wall_a wall_b cpu_a cpu_b = { t with running := true })
      ∧ ({ t with running := false }.stop cb ca wb wa = { t with running := false })
      ∧ ((t.stop cb ca wb wa).stop cb2 ca2 wb2 wa2 = t.stop cb ca wb wa) := by
  intro t wall_a wall_b cpu_a cpu_b cb ca cb2 ca2 wb wa wb2 wa2
  refine ⟨by simp [Timer.start], by simp [Timer.stop], ?_⟩
  exact Timer.stop_of_not_running _ _ _ _ _ (Timer.stop_running t cb ca wb wa)

/-- C9: `reset(false)` leaves both run histories empty, zeroes both
accumulators and leaves the timer stopped, whatever the prior state was
(the two CPU sample arguments and two wall sample arguments feed the
implicit `stop()`). -/
theorem reset_false_clears_everything :
    ∀ (t : Timer) (cpu_b cpu_a : Option Int) (wall_b wall_a : Int),
      (t.reset false cpu_b cpu_a wall_b wall_a).run_times = []
      ∧ (t.reset false cpu_b cpu_a wall_b wall_a).cpu_run_times = []
      ∧ (t.reset false cpu_b cpu_a wall_b wall_a).elapsed_time = 0
      ∧ (t.reset false cpu_b cpu_a wall_b wall_a).elapsed_cpu_time = 0
      ∧ (t.reset false cpu_b cpu_a wall_b wall_a).running = false := by
  intro t cpu_b cpu_a wall_b wall_a
  refine ⟨?_, ?_, ?_, ?_, ?_⟩ <;>
    simp [Timer.reset, Timer.stop_running]

/-- C1: on a running timer, `stop()` adds to the wall accumulator exactly
1.5·D_inner − 0.5·D_outer − 2·cpu_diff, where the halves are the C++
truncating integer divisions (1.5·D_inner is computed as
D_inner + D_inner/2), D_inner = time_point_b − start_b_,
D_outer = time_point_a − start_a_, and
cpu_diff = (time_a − cpu_start_a_) − (time_b − cpu_start_b_) when both
CPU start samples were valid and both stop-side CPU reads succeed, and 0
when CPU timing is unavailable.  In the former case the CPU accumulator
gains D_inner_cpu − cpu_diff/2 (the integer form of
1.5·D_inner_cpu − 0.5·D_outer_cpu); when CPU timing was unavailable from
the start, the CPU accumulator is unchanged. -/
theorem stop_correction_formula (t : Timer) (cb ca wb wa : Int)
    (hrun : t.running = true) :
    (t.cpu_time_valid_a = true → t.cpu_time_valid_b = true →
      ((t.stop (some cb) (some ca) wb wa).elapsed_time
          = t.elapsed_time
            + ((wb - t.start_b) + Int.tdiv (wb - t.start_b) 2 - Int.tdiv (wa - t.start_a) 2
               - 2 * ((ca - t.cpu_start_a) - (cb - t.cpu_start_b)))
       ∧ (t.stop (some cb) (some ca) wb wa).elapsed_cpu_time
          = t.elapsed_cpu_time
            + ((cb - t.cpu_start_b)
               - Int.tdiv ((ca - t.cpu_start_a) - (cb - t.cpu_start_b)) 2)))
    ∧ (t.cpu_time_valid_a = false →
        ∀ (ocb oca : Option Int),
          ((t.stop ocb oca wb wa).elapsed_time
             = t.elapsed_time
               + ((wb - t.start_b) + Int.tdiv (wb - t.start_b) 2
                  - Int.tdiv (wa - t.start_a) 2))
          ∧ (t.stop ocb oca wb wa).elapsed_cpu_time = t.elapsed_cpu_time) := by
  constructor
  · intro hva hvb
    constructor <;> simp [Timer.stop, hrun, hva, hvb]
  · intro hva ocb oca
    constructor <;> simp [Timer.stop, hrun, hva]

/-- Witness for `stop_correction_formula`: a concrete start/stop cycle.
Starting from wall samples 0, 1 and CPU samples 2, 3 and stopping with CPU
reads 13, 20 and wall reads 30, 41 gives D_inner = 29, D_outer = 41,
D_inner_cpu = 10, D_outer_cpu = 18, cpu_diff = 8, hence wall gain
29 + 14 − 20 − 16 = 7 and CPU gain 10 − 4 = 6. -/
theorem stop_correction_formula_witness :
    ((Timer.initial.start 0 1 (some 2) (some 3)).stop (some 13) (some 20) 30 41).elapsed_time = 7
    ∧ ((Timer.initial.start 0 1 (some 2) (some 3)).stop (some 13) (some 20) 30 41).elapsed_cpu_time
        = 6 := by
  have h := (stop_correction_formula (Timer.initial.start 0 1 (some 2) (some 3)) 13 20 30 41
    (by decide)).1 (by decide) (by decide)
  exact ⟨h.1.trans (by decide), h.2.trans (by decide)⟩

/-- C2 counterexample: the corrected elapsed time can be negative on a
monotonic sample sequence, so `assert( elapsed >= 0 )` is violated.  The
reads occur in chronological order wall 0, wall 5, cpu 100, cpu 100
(start) and cpu 100, cpu 100, wall 6, wall 10 (stop): every clock is
non-decreasing and every CPU read is valid, yet D_inner = 1 and
D_outer = 10 give elapsed = 1 + 0 − 5 − 0 = −4 < 0. -/
theorem stop_negative_elapsed_example :
    ((0:Int) ≤ 5 ∧ (5:Int) ≤ 6 ∧ (6:Int) ≤ 10 ∧ (100:Int) ≤ 100)
    ∧ ((Timer.initial.start 0 5 (some 100) (some 100)).stop
          (some 100) (some 100) 6 10).elapsed_time = -4
    ∧ ¬ (0 ≤ ((Timer.initial.start 0 5 (some 100) (some 100)).stop
          (some 100) (some 100) 6 10).elapsed_time) := by
  decide

/-- C2 (amended): the corrected elapsed times are non-negative, and hence
both accumulators non-decreasing, provided the measurement overhead is
bounded: the CPU drift difference cpu_diff is non-negative and at most
twice the inner CPU difference, and the outer wall difference plus four
times cpu_diff is at most three times the inner wall difference.  Without
such bounds the assertion can fail (see the counterexample). -/
theorem stop_elapsed_nonneg_of_bounded_overhead (t : Timer) (cb ca wb wa : Int)
    (hrun : t.running = true)
    (hva : t.cpu_time_valid_a = true) (hvb : t.cpu_time_valid_b = true)
    (hcd0 : 0 ≤ (ca - t.cpu_start_a) - (cb - t.cpu_start_b))
    (hcd2 : (ca - t.cpu_start_a) - (cb - t.cpu_start_b) ≤ 2 * (cb - t.cpu_start_b))
    (hdinw : 0 ≤ wb - t.start_b)
    (hdoutw : 0 ≤ wa - t.start_a)
    (hwall : (wa - t.start_a) + 4 * ((ca - t.cpu_start_a) - (cb - t.cpu_start_b))
               ≤ 3 * (wb - t.start_b)) :
    t.elapsed_time ≤ (t.stop (some cb) (some ca) wb wa).elapsed_time
    ∧ t.elapsed_cpu_time ≤ (t.stop (some cb) (some ca) wb wa).elapsed_cpu_time := by
  have e2 : (0:Int) ≤ 2 := by norm_num
  constructor
  · simp only [Timer.stop, hrun, hva, hvb, if_true, Bool.and_self, Option.getD_some,
      Option.isSome_some]
    rw [Int.tdiv_eq_ediv hdinw e2, Int.tdiv_eq_ediv hdoutw e2]
    omega
  · simp only [Timer.stop, hrun, hva, hvb, if_true, Bool.and_self, Option.getD_some,
      Option.isSome_some]
    rw [Int.tdiv_eq_ediv hcd0 e2]
    omega

/-- Witness for `stop_elapsed_nonneg_of_bounded_overhead`: with start
samples wall 0, 1 and CPU 0, 0 and stop reads CPU 10, 12, wall 20, 21 the
bounds hold (cpu_diff = 2 ≤ 20, 21 + 8 ≤ 57) and both accumulators do not
decrease. -/
theorem stop_elapsed_nonneg_witness :
    (Timer.initial.start 0 1 (some 0) (some 0)).running = true
    ∧ ((Timer.initial.start 0 1 (some 0) (some 0)).elapsed_time
         ≤ ((Timer.initial.start 0 1 (some 0) (some 0)).stop
              (some 10) (some 12) 20 21).elapsed_time
       ∧ (Timer.initial.start 0 1 (some 0) (some 0)).elapsed_cpu_time
         ≤ ((Timer.initial.start 0 1 (some 0) (some 0)).stop
              (some 10) (some 12) 20 21).elapsed_cpu_time) :=
  ⟨by decide,
   stop_elapsed_nonneg_of_bounded_overhead (Timer.initial.start 0 1 (some 0) (some 0))
     10 12 20 21 (by decide) (by decide) (by decide) (by decide) (by decide) (by decide)
     (by decide) (by decide)⟩

/-- C3: `reset(true)` first performs the implicit `stop()`; writing `s`
for the stopped state, it appends `s.elapsed_time` to the wall history and
`s.elapsed_cpu_time` (or the sentinel -1 when CPU timing was invalid) to
the CPU history exactly when the accumulated wall time is nonzero (under
the data-model invariant that the wall accumulator is non-negative,
nonzero coincides with the code's `> 0` test), and afterwards both
accumulators are zero, both CPU validity flags are re-enabled and the
timer is stopped. -/
theorem reset_newrun_commits (t : Timer) (cpu_b cpu_a : Option Int) (wall_b wall_a : Int)
    (hnn : 0 ≤ (t.stop cpu_b cpu_a wall_b wall_a).elapsed_time) :
    ((t.stop cpu_b cpu_a wall_b wall_a).elapsed_time ≠ 0 →
       (t.reset true cpu_b cpu_a wall_b wall_a).run_times
          = (t.stop cpu_b cpu_a wall_b wall_a).run_times
            ++ [(t.stop cpu_b cpu_a wall_b wall_a).elapsed_time]
       ∧ (t.reset true cpu_b cpu_a wall_b wall_a).cpu_run_times
          = (t.stop cpu_b cpu_a wall_b wall_a).cpu_run_times
            ++ [if (t.stop cpu_b cpu_a wall_b wall_a).cpu_time_valid_a then
                  (t.stop cpu_b cpu_a wall_b wall_a).elapsed_cpu_time
                else -1])
    ∧ ((t.stop cpu_b cpu_a wall_b wall_a).elapsed_time = 0 →
       (t.reset true cpu_b cpu_a wall_b wall_a).run_times
          = (t.stop cpu_b cpu_a wall_b wall_a).run_times
       ∧ (t.reset true cpu_b cpu_a wall_b wall_a).cpu_run_times
          = (t.stop cpu_b cpu_a wall_b wall_a).cpu_run_times)
    ∧ (t.reset true cpu_b cpu_a wall_b wall_a).elapsed_time = 0
    ∧ (t.reset true cpu_b cpu_a wall_b wall_a).elapsed_cpu_time = 0
    ∧ (t.reset true cpu_b cpu_a wall_b wall_a).cpu_time_valid_a = true
    ∧ (t.reset true cpu_b cpu_a wall_b wall_a).cpu_time_valid_b = true
    ∧ (t.reset true cpu_b cpu_a wall_b wall_a).running = false := by
  have hr := Timer.stop_running t cpu_b cpu_a wall_b wall_a
  by_cases h : (t.stop cpu_b cpu_a wall_b wall_a).elapsed_time > 0
  · refine ⟨fun _ => ?_, fun h0 => absurd h0 (by omega), ?_, ?_, ?_, ?_, ?_⟩ <;>
      simp [Timer.reset, h, hr]
  · have h0 : (t.stop cpu_b cpu_a wall_b wall_a).elapsed_time = 0 := by omega
    refine ⟨fun hne => absurd h0 hne, fun _ => ?_, ?_, ?_, ?_, ?_, ?_⟩ <;>
      simp [Timer.reset, h, hr]

/-- Witness for `reset_newrun_commits`: a start (with unavailable CPU
clock) followed by `reset(true)` with wall stop reads 10, 10 commits the
run [10] with CPU sentinel entry [-1]. -/
theorem reset_newrun_commits_witness :
    ((Timer.initial.start 0 0 none none).reset true none none 10 10).run_times = [10]
    ∧ ((Timer.initial.start 0 0 none none).reset true none none 10 10).cpu_run_times = [-1] := by
  have h := (reset_newrun_commits (Timer.initial.start 0 0 none none) none none 10 10
    (by decide)).1 (by decide)
  exact ⟨h.1.trans (by decide), h.2.trans (by decide)⟩

/-- C10: when the current uncommitted run has nonzero elapsed wall time
while the elapsed CPU time is -1 or 0, and the committed histories are
parallel, `getRunTimes()` appends the in-flight wall time while
`getCpuRunTimes()` appends nothing, so the wall query result is exactly
one entry longer than the CPU query result. -/
theorem getRunTimes_one_longer_than_cpu (t : Timer) (now : Int) (cpu_now : Option Int)
    (hlen : t.run_times.length = t.cpu_run_times.length)
    (hw : t.getElapsedTime now ≠ 0)
    (hc : t.getElapsedCpuTime cpu_now = -1 ∨ t.getElapsedCpuTime cpu_now = 0) :
    t.getRunTimes now = t.run_times ++ [t.getElapsedTime now]
    ∧ t.getCpuRunTimes cpu_now = t.cpu_run_times
    ∧ (t.getRunTimes now).length = (t.getCpuRunTimes cpu_now).length + 1 := by
  have hcle : ¬ (t.getElapsedCpuTime cpu_now > 0) := by rcases hc with h | h <;> omega
  refine ⟨by simp [Timer.getRunTimes, hw], by simp [Timer.getCpuRunTimes, hcle], ?_⟩
  simp [Timer.getRunTimes, Timer.getCpuRunTimes, hw, hcle, hlen]

/-- Witness for `getRunTimes_one_longer_than_cpu`: a stopped timer with an
uncommitted wall accumulator of 7 whose CPU clock failed during the run
([] and [] committed) answers getRunTimes = [7] and getCpuRunTimes = [],
lengths 1 and 0. -/
theorem getRunTimes_one_longer_than_cpu_witness :
    (({ Timer.initial with elapsed_time := 7, cpu_time_valid_a := false } : Timer).getRunTimes
        0).length
    = (({ Timer.initial with elapsed_time := 7, cpu_time_valid_a := false } : Timer).getCpuRunTimes
        none).length + 1 :=
  (getRunTimes_one_longer_than_cpu
    { Timer.initial with elapsed_time := 7, cpu_time_valid_a := false } 0 none
    (by decide) (by decide) (Or.inl (by decide))).2.2

/-- Any single operation either leaves both run histories unchanged, or is
a `reset(true)` that appends one entry to each, or is a `reset(false)`
that clears both. -/
lemma execOp_growth (t : Timer) (op : TimerOp) :
    ((execOp t op).run_times = t.run_times ∧ (execOp t op).cpu_run_times = t.cpu_run_times)
    ∨ ((∃ cpu_b cpu_a wall_b wall_a, op = .resetOp true cpu_b cpu_a wall_b wall_a)
        ∧ ∃ x y, (execOp t op).run_times = t.run_times ++ [x]
               ∧ (execOp t op).cpu_run_times = t.cpu_run_times ++ [y])
    ∨ ((∃ cpu_b cpu_a wall_b wall_a, op = .resetOp false cpu_b cpu_a wall_b wall_a)
        ∧ (execOp t op).run_times = [] ∧ (execOp t op).cpu_run_times = []) := by
  cases op with
  | startOp wall_a wall_b cpu_a cpu_b =>
    exact Or.inl ⟨Timer.start_run_times t wall_a wall_b cpu_a cpu_b,
      Timer.start_cpu_run_times t wall_a wall_b cpu_a cpu_b⟩
  | stopOp cpu_b cpu_a wall_b wall_a =>
    exact Or.inl ⟨Timer.stop_run_times t cpu_b cpu_a wall_b wall_a,
      Timer.stop_cpu_run_times t cpu_b cpu_a wall_b wall_a⟩
  | queryOp => exact Or.inl ⟨rfl, rfl⟩
  | resetOp new_run cpu_b cpu_a wall_b wall_a =>
    cases new_run with
    | true =>
      by_cases h : (t.stop cpu_b cpu_a wall_b wall_a).elapsed_time > 0
      · refine Or.inr (Or.inl ⟨⟨cpu_b, cpu_a, wall_b, wall_a, rfl⟩,
          (t.stop cpu_b cpu_a wall_b wall_a).elapsed_time,
          (if (t.stop cpu_b cpu_a wall_b wall_a).cpu_time_valid_a then
            (t.stop cpu_b cpu_a wall_b wall_a).elapsed_cpu_time else -1), ?_, ?_⟩) <;>
          simp [execOp, Timer.reset, h, Timer.stop_run_times, Timer.stop_cpu_run_times]
      · refine Or.inl ⟨?_, ?_⟩ <;>
          simp [execOp, Timer.reset, h, Timer.stop_run_times, Timer.stop_cpu_run_times]
    | false =>
      refine Or.inr (Or.inr ⟨⟨cpu_b, cpu_a, wall_b, wall_a, rfl⟩, ?_, ?_⟩) <;>
        simp [execOp, Timer.reset]

/-- One operation preserves equality of the two history lengths. -/
lemma execOp_preserves_parallel (t : Timer) (op : TimerOp)
    (h : t.run_times.length = t.cpu_run_times.length) :
    (execOp t op).run_times.length = (execOp t op).cpu_run_times.length := by
  rcases execOp_growth t op with ⟨h1, h2⟩ | ⟨_, x, y, h1, h2⟩ | ⟨_, h1, h2⟩ <;>
    simp [h1, h2, h]

/-- A whole operation sequence preserves equality of the history
lengths. -/
lemma execOps_preserves_parallel (ops : List TimerOp) :
    ∀ t : Timer, t.run_times.length = t.cpu_run_times.length →
      (execOps t ops).run_times.length = (execOps t ops).cpu_run_times.length := by
  induction ops with
  | nil => intro t h; exact h
  | cons op rest ih =>
    intro t h
    exact ih (execOp t op) (execOp_preserves_parallel t op h)

/-- C5: along every operation sequence from a fresh timer the wall and CPU
run histories keep equal length (entry i corresponds to entry i), and the
histories only change by a `reset(true)` appending one entry to each or a
`reset(false)` clearing both; no operation ever shrinks them otherwise. -/
theorem run_histories_parallel :
    (∀ ops : List TimerOp,
       (execOps Timer.initial ops).run_times.length
         = (execOps Timer.initial ops).cpu_run_times.length)
    ∧ (∀ (t : Timer) (op : TimerOp),
        ((execOp t op).run_times = t.run_times
          ∧ (execOp t op).cpu_run_times = t.cpu_run_times)
        ∨ ((∃ cpu_b cpu_a wall_b wall_a, op = .resetOp true cpu_b cpu_a wall_b wall_a)
            ∧ ∃ x y, (execOp t op).run_times = t.run_times ++ [x]
                   ∧ (execOp t op).cpu_run_times = t.cpu_run_times ++ [y])
        ∨ ((∃ cpu_b cpu_a wall_b wall_a, op = .resetOp false cpu_b cpu_a wall_b wall_a)
            ∧ (execOp t op).run_times = [] ∧ (execOp t op).cpu_run_times = [])) :=
  ⟨fun ops => execOps_preserves_parallel ops Timer.initial rfl, execOp_growth⟩

/-- C6: over the run sequence [100, 200, 300] ns the statistics loop gives
mean 200, sample variance 10000 with denominator n−1 = 2 (so the standard
deviation, the nonnegative square root, is 100, recorded here as
100² = variance), minimum 100, maximum 300 and sum 600. -/
theorem stats_on_100_200_300 :
    meanOf [100, 200, 300] = 200
    ∧ varOf [100, 200, 300] = 10000
    ∧ (100 : ℚ) ^ 2 = varOf [100, 200, 300]
    ∧ (statsFold [100, 200, 300]).min = 100
    ∧ (statsFold [100, 200, 300]).max = 300
    ∧ (statsFold [100, 200, 300]).sum = 600
    ∧ printStats [100, 200, 300] = .stats 200 10000 300 100 600 none := by
  norm_num [printStats, varOf, varNumerator, varStep, meanOf, statsFold, statsStep, int64Max]

/-- Folding the statistics accumulator over a list is the same as folding
it over the list with the sentinel entries removed. -/
lemma foldl_statsStep_filter (l : List Int) :
    ∀ acc : StatsAcc,
      l.foldl statsStep acc = (l.filter (fun x => x != -1)).foldl statsStep acc := by
  induction l with
  | nil => intro acc; rfl
  | cons x xs ih =>
    intro acc
    rw [List.foldl_cons]
    by_cases h : x = -1
    · have hs : statsStep acc x = acc := by simp [statsStep, h]
      have hf : (x :: xs).filter (fun x => x != -1) = xs.filter (fun x => x != -1) := by
        simp [List.filter_cons, h]
      rw [hs, hf, ih]
    · have hf : (x :: xs).filter (fun x => x != -1) = x :: xs.filter (fun x => x != -1) := by
        simp [List.filter_cons, h]
      rw [hf, List.foldl_cons, ih]

/-- Folding the squared-deviation accumulator over a list is the same as
folding it over the list with the sentinel entries removed. -/
lemma foldl_varStep_filter (m : ℚ) (l : List Int) :
    ∀ v : ℚ,
      l.foldl (varStep m) v = (l.filter (fun x => x != -1)).foldl (varStep m) v := by
  induction l with
  | nil => intro v; rfl
  | cons x xs ih =>
    intro v
    rw [List.foldl_cons]
    by_cases h : x = -1
    · have hs : varStep m v x = v := by simp [varStep, h]
      have hf : (x :: xs).filter (fun x => x != -1) = xs.filter (fun x => x != -1) := by
        simp [List.filter_cons, h]
      rw [hs, hf, ih]
    · have hf : (x :: xs).filter (fun x => x != -1) = x :: xs.filter (fun x => x != -1) := by
        simp [List.filter_cons, h]
      rw [hf, List.foldl_cons, ih]

/-- C7: sentinel entries (-1) are excluded from count, sum, min, max, mean
and the squared-deviation sum (computing over a list and over the list
with sentinels removed agree); `printStats` reports the early message when
zero valid entries exist (the C++ code returns it before printing any
quotient, so no integer division by zero is ever executed), and emits the
warning pair (valid count, total count) exactly when some entries were
excluded; concretely, one sentinel alongside two valid entries yields
count 2 and the warning (2, 3), and an all-sentinel list yields the
no-valid-times report. -/
theorem printStats_sentinel_handling :
    (∀ l : List Int,
       statsFold l = statsFold (l.filter (fun x => x != -1))
       ∧ meanOf l = meanOf (l.filter (fun x => x != -1))
       ∧ varNumerator (meanOf l) l = varNumerator (meanOf l) (l.filter (fun x => x != -1)))
    ∧ (∀ l : List Int,
       ((statsFold l).count = 0 ∧ printStats l = .noValid)
       ∨ ((statsFold l).count ≠ 0 ∧ (statsFold l).count ≠ l.length
          ∧ printStats l = .stats (meanOf l) (varOf l) (statsFold l).max (statsFold l).min
              (statsFold l).sum (some ((statsFold l).count, l.length)))
       ∨ ((statsFold l).count ≠ 0 ∧ (statsFold l).count = l.length
          ∧ printStats l = .stats (meanOf l) (varOf l) (statsFold l).max (statsFold l).min
              (statsFold l).sum none))
    ∧ printStats [100, -1, 300] = .stats 200 20000 300 100 400 (some (2, 3))
    ∧ printStats [-1, -1] = .noValid := by
  refine ⟨?_, ?_, ?_, ?_⟩
  · intro l
    have hs : statsFold l = statsFold (l.filter (fun x => x != -1)) :=
      foldl_statsStep_filter l _
    refine ⟨hs, ?_, foldl_varStep_filter (meanOf l) l 0⟩
    unfold meanOf
    rw [← hs]
  · intro l
    by_cases h0 : (statsFold l).count = 0
    · exact Or.inl ⟨h0, by simp [printStats, h0]⟩
    · by_cases hL : (statsFold l).count = l.length
      · have hne : l ≠ [] := fun he => h0 (by subst he; rfl)
        exact Or.inr (Or.inr ⟨h0, hL, by simp [printStats, h0, hL, hne]⟩)
      · exact Or.inr (Or.inl ⟨h0, hL, by simp [printStats, h0, hL]⟩)
  · norm_num [printStats, varOf, varNumerator, varStep, meanOf, statsFold, statsStep, int64Max]
  · norm_num [printStats, statsFold, statsStep, int64Max]

/-- C8: with the Default (auto) unit, `printTimeString` renders
nanoseconds below 5,000 ns, microseconds below 5,000,000 ns, milliseconds
below 5·10⁹ ns and seconds otherwise; the boundary values 4999, 5000,
4999999 and 5000000 ns choose ns, µs, µs and ms respectively. -/
theorem auto_unit_selection :
    (∀ time : Int,
       (time < 5000 ∧ (printTimeString time .Default).1 = .ns)
       ∨ (5000 ≤ time ∧ time < 5000000 ∧ (printTimeString time .Default).1 = .us)
       ∨ (5000000 ≤ time ∧ time < 5000000000 ∧ (printTimeString time .Default).1 = .ms)
       ∨ (5000000000 ≤ time ∧ (printTimeString time .Default).1 = .s))
    ∧ (printTimeString 4999 .Default).1 = .ns
    ∧ (printTimeString 5000 .Default).1 = .us
    ∧ (printTimeString 4999999 .Default).1 = .us
    ∧ (printTimeString 5000000 .Default).1 = .ms := by
  refine ⟨?_, by decide, by decide, by decide, by decide⟩
  intro time
  by_cases h1 : time < 5000
  · exact Or.inl ⟨h1, by simp [printTimeString, h1]⟩
  · by_cases h2 : time < 5000000
    · exact Or.inr (Or.inl ⟨by omega, h2, by simp [printTimeString, h1, h2]⟩)
    · by_cases h3 : time < 5000000000
      · exact Or.inr (Or.inr (Or.inl ⟨by omega, h3, by simp [printTimeString, h1, h2, h3]⟩))
      · exact Or.inr (Or.inr (Or.inr ⟨by omega, by simp [printTimeString, h1, h2, h3]⟩))
